import Mathlib

/-
Shallow embedding of the quota / priority / state-machine core of the
SCXRD_SAC laboratory-management application.

Conventions of the embedding:
  * Python `Decimal` values are rationals (`Rat`).
  * timestamps and clock times are integers counting seconds; calendar dates
    are integers counting days, so `date * 86400 + time` is a datetime.
  * `None` becomes `Option.none`; Python truthiness of a numeric value is
    the test `x ≠ 0`, of a string the test `s ≠ ""`.
  * Django model rows become structures; a method that mutates and saves a
    row becomes a function returning the updated structure.
-/

/-- Floor of a rational number, computed directly on numerator and
denominator with flooring integer division (the denominator is positive). -/
def floorQ (q : Rat) : Int := Int.fdiv q.num (Int.ofNat q.den)

/-- Python `round(x)` for a rational: round half to even (banker's rounding),
as the Python builtin does. -/
def pyRound (q : Rat) : Int :=
  let f : Int := floorQ q
  let r : Rat := q - (f : Rat)
  if r < 1/2 then f
  else if 1/2 < r then f + 1
  else if f % 2 = 0 then f else f + 1

/-- Python `round(x, 2)`: round to two decimal places, half to even. -/
def round2 (q : Rat) : Rat := (pyRound (q * 100) : Rat) / 100

/-
PriorityEngine: `Application.priority` (src/application/models.py, lines
593-625).  The Python property reads `self.asap_priority`, `self.deadline`
and the wall clock; here they are explicit arguments.  `time_left.days +
time_left.seconds / 86400` equals `time_left / 86400` at whole-second
resolution, which is the granularity of this embedding.
-/

/-- Application.priority: ASAP gives 100; no deadline gives 0; an expired
deadline gives 101; otherwise a linear ramp over the last 14 days, capped
at 100 and rounded to 2 decimals. -/
def priority (asap_priority : Bool) (deadline : Option Int) (now : Int) : Rat :=
  if asap_priority then 100
  else
    match deadline with
    | none => 0
    | some d =>
      let time_left : Int := d - now
      if time_left ≤ 0 then 101
      else
        let days_left : Rat := (time_left : Rat) / 86400
        if 14 < days_left then 0
        else min 100 (round2 (100 * (1 - days_left / 14)))

/-
QuotaLedger: `QuotaGroup` (src/quotagroup/models.py) and `Laboratory`
(src/labs/models.py).
-/

/-- QuotaGroup row: `period_time = none` is the unlimited regime, `some (-1)`
the quota-exempt regime, any other value the metered regime. -/
structure QuotaGroup where
  period_time : Option Rat
  max_time : Option Rat
  current_time : Rat
  quota_reset_time : Rat
  last_reset : Int
  deriving Repr, DecidableEq

/-- QuotaGroup.reset_quota: no-op for unlimited / exempt groups; otherwise
adds `period_time` to `current_time`, capped by `max_time` when that is set,
records the new balance in `quota_reset_time` and stamps `last_reset`. -/
def QuotaGroup.reset_quota (g : QuotaGroup) (now : Int) : QuotaGroup :=
  match g.period_time with
  | none => g
  | some pt =>
    if pt = -1 then g
    else
      let new_time0 := g.current_time + pt
      let new_time :=
        match g.max_time with
        | some m => if m < new_time0 then m else new_time0
        | none => new_time0
      { g with current_time := new_time, quota_reset_time := new_time, last_reset := now }

/-- QuotaGroup.add_time: `if time:` guards the mutation, so a zero (falsy)
argument is a no-op; otherwise `current_time += time` unconditionally —
there is no unlimited / exempt check in this method. -/
def QuotaGroup.add_time (g : QuotaGroup) (time : Rat) : QuotaGroup :=
  if time ≠ 0 then { g with current_time := g.current_time + time } else g

/-- QuotaGroup.subtract_time is exactly `add_time(-time)`. -/
def QuotaGroup.subtract_time (g : QuotaGroup) (time : Rat) : QuotaGroup :=
  g.add_time (-time)

/-- Laboratory row: only the quota-group link matters for this core. -/
structure Laboratory where
  quota_group : Option QuotaGroup
  deriving Repr, DecidableEq

/-- Laboratory.get_available_time: 999999 sentinel for a missing, unlimited
or exempt group; otherwise the group's live balance. -/
def Laboratory.get_available_time (lab : Laboratory) : Rat :=
  match lab.quota_group with
  | none => 999999
  | some g =>
    match g.period_time with
    | none => 999999
    | some pt => if pt = -1 then 999999 else g.current_time

/-- Laboratory.consume_time: no-op when the group is missing, unlimited or
exempt; otherwise subtracts `hours` from the group's `current_time`. -/
def Laboratory.consume_time (lab : Laboratory) (hours : Rat) : Laboratory :=
  match lab.quota_group with
  | none => lab
  | some g =>
    if g.period_time = none ∨ g.period_time = some (-1) then lab
    else { lab with quota_group := some { g with current_time := g.current_time - hours } }

/-
ApplicationStateMachine: `Application.compute_time_spent`
(src/application/models.py, lines 534-591).  The diffractometer's
`time_cons_night_experiment` constant is passed in as a rational number of
hours (the Django field is a Decimal); `quota_compensation` is an optional
signed duration in seconds.
-/

/-- Application.compute_time_spent: `none` when any of the four components
is missing; the flat night-experiment constant when the dates differ;
otherwise the clock-time difference with midnight wrap plus the (truthy)
quota compensation, in hours rounded to 2 decimals. -/
def compute_time_spent (time_cons_night_experiment : Rat) (quota_compensation : Option Int)
    (sd st ed et : Option Int) : Option Rat :=
  match sd, st, ed, et with
  | some sdv, some stv, some edv, some etv =>
    if sdv ≠ edv then
      some (round2 time_cons_night_experiment)
    else
      let start_dt : Int := sdv * 86400 + stv
      let end_dt0 : Int := edv * 86400 + etv
      let end_dt : Int := if end_dt0 < start_dt then end_dt0 + 86400 else end_dt0
      let delta0 : Int := end_dt - start_dt
      let delta : Int :=
        match quota_compensation with
        | some qc => if qc ≠ 0 then delta0 + qc else delta0
        | none => delta0
      some (round2 ((delta : Rat) / 3600))
  | _, _, _, _ => none

/-
Application save pipeline (src/application/models.py `Application.save`,
src/application/signals.py).  An Application row holds the persisted
columns; an in-memory instance additionally carries the `_prev_status` and
`_current_time` attributes set by `__init__`.  Email dispatch by the
pre_save / post_save signal handlers is recorded as a list of events.
-/

/-- Email events emitted by the signal handlers in
src/application/signals.py. -/
inductive EmailKind where
  | completed
  | rejected
  | dataSent
  deriving Repr, DecidableEq

/-- Application columns relevant to the save pipeline. -/
structure AppFields where
  status : String
  data_status : String
  prev_status : Option String
  prev_data_status : String
  time_spent : Rat
  experiment_start_date : Option Int
  experiment_start : Option Int
  experiment_end_date : Option Int
  experiment_end : Option Int
  quota_compensation : Option Int
  proc_status_application : String
  smpl_type_application : String
  data_quantity_application : String
  dmin_application : String
  probe_count : Nat
  deriving Repr, DecidableEq

/-- In-memory Application instance: the field values plus the two instance
attributes stashed by `Application.__init__`. -/
structure AppInstance where
  fields : AppFields
  prev_status_attr : String
  current_time_attr : Rat
  deriving Repr, DecidableEq

/-- Application.__init__ on a row loaded from the database: `_prev_status`
mirrors the loaded status and `_current_time` the loaded time_spent. -/
def load_application (db : AppFields) : AppInstance :=
  { fields := db, prev_status_attr := db.status, current_time_attr := db.time_spent }

/-- Pre-save signal `application_status_changed`: for a persisted instance,
a completed email fires when status is `completed` and the in-memory
`_prev_status` attribute differs, a rejected email symmetrically. -/
def status_change_emails (f : AppFields) (prev_status_attr : String) : List EmailKind :=
  if f.status = "completed" then
    if prev_status_attr ≠ "completed" then [.completed] else []
  else if f.status = "rejected" then
    if prev_status_attr ≠ "rejected" then [.rejected] else []
  else []

/-- Post-save signal `application_data_status_changed`: for a persisted
instance, the data-published email fires when `data_status` is `DATA_SENT`
and the instance's `prev_data_status` field differs. -/
def data_status_emails (f : AppFields) : List EmailKind :=
  if f.data_status = "DATA_SENT" then
    if f.prev_data_status ≠ "DATA_SENT" then [.dataSent] else []
  else []

/-- Result of one save: the in-memory instance, the persisted row, the
owning laboratory, and the emails fired during the save. -/
structure SaveResult where
  inst : AppInstance
  db : AppFields
  lab : Laboratory
  emails : List EmailKind
  deriving Repr

/-- Application.save for an already-persisted instance called without
`update_fields`: recompute time_spent, consume the owning laboratory's
quota (both guarded by Python truthiness of the computed value and of the
`_current_time` snapshot), snapshot `prev_status` / `prev_data_status` from
the database row, write every column, fire the signal handlers, and update
`_prev_status` (`_current_time` is not refreshed in the source). -/
def application_save (night : Rat) (lab : Laboratory) (db : AppFields)
    (inst : AppInstance) : SaveResult :=
  let computed := compute_time_spent night inst.fields.quota_compensation
      inst.fields.experiment_start_date inst.fields.experiment_start
      inst.fields.experiment_end_date inst.fields.experiment_end
  let step :=
    match computed with
    | some t =>
      if t ≠ 0 then
        (if inst.current_time_attr ≠ 0 then lab.consume_time (t - inst.current_time_attr)
         else lab.consume_time t,
         { inst.fields with time_spent := t })
      else (lab, inst.fields)
    | none => (lab, inst.fields)
  let lab1 := step.1
  let f2 := { step.2 with prev_data_status := db.data_status, prev_status := some db.status }
  let pre := status_change_emails f2 inst.prev_status_attr
  let post := data_status_emails f2
  { inst := { fields := f2, prev_status_attr := f2.status,
              current_time_attr := inst.current_time_attr },
    db := f2, lab := lab1, emails := pre ++ post }

/-
Aggregate rebuild: `Application.update_aggregated_fields`
(src/application/models.py, lines 453-479).  Probes are ordered by
`number`; each per-probe value is rendered with `str(v or '♠')`; the
rebuilt strings are persisted through a narrow `super().save(update_fields=
[...])`, which bypasses `Application.save` but still fires the signal
handlers on the unchanged-in-memory status fields.
-/

/-- Per-probe columns feeding the aggregates, each rendered as the string
Python would produce (empty string for a null / empty value). -/
structure ProbeAgg where
  number : Nat
  proc_status : String
  smpl_type : String
  data_quantity : String
  dmin : String
  deriving Repr, DecidableEq

/-- Python `str(v or '♠')` for a string-rendered value: the spade sentinel
replaces a falsy (null or empty) value. -/
def safe_str (v : String) : String := if v = "" then "♠" else v

/-- Insert a probe into a list sorted by `number`. -/
def insertByNumber (p : ProbeAgg) : List ProbeAgg → List ProbeAgg
  | [] => [p]
  | q :: qs => if p.number ≤ q.number then p :: q :: qs else q :: insertByNumber p qs

/-- Sort probes by `number` (the `order_by('number')` queryset). -/
def sortByNumber : List ProbeAgg → List ProbeAgg
  | [] => []
  | p :: ps => insertByNumber p (sortByNumber ps)

/-- Concatenation of a list of strings (Python `''.join`). -/
def concat_all : List ProbeAgg → (ProbeAgg → String) → String
  | [], _ => ""
  | p :: ps, f => f p ++ concat_all ps f

/-- Application.update_aggregated_fields: set `probe_count` and the four
aggregate strings from the probes in `number` order, then persist only
those five columns via a narrow save (signals still fire on it). -/
def update_aggregated_fields (probes : List ProbeAgg) (lab : Laboratory)
    (db : AppFields) (inst : AppInstance) : SaveResult :=
  let sorted := sortByNumber probes
  let f1 := { inst.fields with
      probe_count := sorted.length,
      proc_status_application := concat_all sorted (fun p => safe_str p.proc_status),
      smpl_type_application := concat_all sorted (fun p => safe_str p.smpl_type),
      data_quantity_application := concat_all sorted (fun p => safe_str p.data_quantity),
      dmin_application := concat_all sorted (fun p => safe_str p.dmin) }
  let pre := status_change_emails f1 inst.prev_status_attr
  let post := data_status_emails f1
  let db1 := { db with
      probe_count := f1.probe_count,
      proc_status_application := f1.proc_status_application,
      smpl_type_application := f1.smpl_type_application,
      data_quantity_application := f1.data_quantity_application,
      dmin_application := f1.dmin_application }
  { inst := { inst with fields := f1 }, db := db1, lab := lab, emails := pre ++ post }

/-
LockManager: `ApplicationProcessView.dispatch` (src/application/views.py,
lines 775-802) and the `operator_lock_cooldown` constant
(src/application/models.py, line 187).  Users are identified by numbers.
The source writes `locked_by` and `locked_at` together at every
acquisition and clears both on release, so the lock state is the optional
pair (holder, acquisition time).
-/

/-- Application.operator_lock_cooldown: two hours, in seconds. -/
def operator_lock_cooldown : Int := 7200

/-- Outcome of the dispatch gate: whether processing proceeds, the holder
named in a conflict rejection, and the lock state after the attempt. -/
structure DispatchOutcome where
  allowed : Bool
  conflict_holder : Option Nat
  lock : Option (Nat × Int)
  deriving Repr, DecidableEq

/-- ApplicationProcessView.dispatch lock gate: a different holder within
the cooldown rejects with a conflict naming the holder and writes nothing;
a different holder past the cooldown is stolen; otherwise the requester
acquires or refreshes the lock, stamping both fields with `now`. -/
def lock_dispatch (lock : Option (Nat × Int)) (requester : Nat) (now : Int) :
    DispatchOutcome :=
  match lock with
  | some (holder, acquired_at) =>
    if holder ≠ requester then
      if now - acquired_at < operator_lock_cooldown then
        { allowed := false, conflict_holder := some holder, lock := some (holder, acquired_at) }
      else
        { allowed := true, conflict_holder := none, lock := some (requester, now) }
    else
      { allowed := true, conflict_holder := none, lock := some (requester, now) }
  | none =>
    { allowed := true, conflict_holder := none, lock := some (requester, now) }

/-
Quota time transfer: `QuotaTimeTransactionForm.clean`
(src/quotagroup/forms.py, lines 56-94) and the create view's `form_valid`
(src/quotagroup/views.py).  Validation errors (insufficient donor balance,
donor equal to acceptor) reject the request before any mutation; on success
the donor is debited via `subtract_time`, the acceptor credited via
`add_time`, and the audit row is inserted by the view's final `form.save()`.
Groups are identified by numbers so donor and acceptor can be compared.
-/

/-- Result of a transfer request: the two groups, the audit rows created by
this request, and whether it was accepted. -/
structure TransferResult where
  donor : QuotaGroup
  acceptor : QuotaGroup
  audit_rows : List Rat
  accepted : Bool
  deriving Repr, DecidableEq

/-- Quota time transfer protocol: `clean` rejects when the donor balance is
below the requested amount or the donor is the acceptor (no mutation, no
audit row); otherwise the donor is debited, the acceptor credited and
exactly one audit row recording the amount is created. -/
def quota_transfer (donor_id acceptor_id : Nat) (donor acceptor : QuotaGroup)
    (time_transfer : Rat) : TransferResult :=
  if donor.current_time < time_transfer ∨ donor_id = acceptor_id then
    { donor := donor, acceptor := acceptor, audit_rows := [], accepted := false }
  else
    { donor := donor.subtract_time time_transfer,
      acceptor := acceptor.add_time time_transfer,
      audit_rows := [time_transfer], accepted := true }

/-
ProbeStatusMachine: `Probe.ProcStatus` (src/probe/models.py, lines
135-244).  Statuses are the stored one-character strings; the NULL choice
is the empty string.
-/

/-- Probe.ProcStatus.get_reduced_value: SC_NR `<` and RE_R `!` resolve to
SC_R `.`, PW_NR `(` resolves to PW_R `;`, everything else is fixed. -/
def get_reduced_value (status : String) : String :=
  if status = "<" then "."
  else if status = "(" then ";"
  else if status = "!" then "."
  else status

/-- Probe.ProcStatus.get_posted_value: SC_R `.` becomes SC_RS `>`, PW_R `;`
becomes PW_RS `)`, everything else is fixed. -/
def get_posted_value (status : String) : String :=
  if status = "." then ">"
  else if status = ";" then ")"
  else status

/-- Probe.ProcStatus.need_to_post: true exactly for SC_R `.` and PW_R `;`. -/
def need_to_post (status : String) : Bool :=
  if status = "." then true
  else if status = ";" then true
  else false

/-- The stored values of the ProcStatus alphabet, NULL first. -/
def proc_status_values : List String :=
  ["", "x", "<", ".", "!", "@", ">", "(", ";", ")", "+", "#", "-", "~", "l"]

/-
NotificationApproval: `NotificationIssue` (src/notification/models.py).
A relation carries its logic code and the pending / accepted / rejected
response counts its three related querysets would return.
-/

/-- NotificationRelations row with the sizes of its three response sets. -/
structure NotificationRelation where
  is_active : Bool
  logic_dependence : String
  pending : Nat
  accepted : Nat
  rejected : Nat
  deriving Repr, DecidableEq

/-- Gate of one active relation inside `is_action_allowed`: an `&` relation
fails on any rejected or pending response; a `|` relation fails without an
accepted response; any other logic code imposes nothing. -/
def relation_gate (r : NotificationRelation) : Bool :=
  if r.logic_dependence = "&" then !(decide (0 < r.rejected) || decide (0 < r.pending))
  else if r.logic_dependence = "|" then decide (0 < r.accepted)
  else true

/-- NotificationIssue.is_action_allowed: the loop over active relations
returns False at the first failing gate, True when none fails. -/
def is_action_allowed (rels : List NotificationRelation) : Bool :=
  (rels.filter (fun r => r.is_active)).all relation_gate

/-- NotificationIssue.method_mapping: closed map from action codes to
handler names. -/
def method_mapping (m : String) : Option String :=
  if m = "chgsp" then some "dummymethod1"
  else if m = "chglb" then some "dummymethod2"
  else if m = "dummymethod3" then some "dummymethod3"
  else none

/-- Phases at which `try_action` can stop or proceed: blocked by the
approval gate, stopped on an unmapped action code, or dispatched to the
named handler (whose own execution is external best-effort code). -/
inductive TryActionResult where
  | notAllowed
  | unknownMethod
  | handlerDispatched (name : String)
  deriving Repr, DecidableEq

/-- NotificationIssue.try_action up to handler dispatch: gate first, then
the method-code lookup, then dispatch to the mapped handler. -/
def try_action (rels : List NotificationRelation) (method : String) : TryActionResult :=
  if !(is_action_allowed rels) then .notAllowed
  else
    match method_mapping method with
    | none => .unknownMethod
    | some name => .handlerDispatched name

/-
Concrete fixtures used by the verification theorems below.
-/

/-- An unlimited quota group (period_time NULL) with a zero balance. -/
def c2_group : QuotaGroup :=
  { period_time := none, max_time := none, current_time := 0,
    quota_reset_time := 0, last_reset := 0 }

/-- Application row with no experiment dates or times recorded. -/
def c3_db : AppFields :=
  { status := "submitted", data_status := "NO_DATA", prev_status := none,
    prev_data_status := "", time_spent := 4,
    experiment_start_date := none, experiment_start := none,
    experiment_end_date := none, experiment_end := none,
    quota_compensation := none,
    proc_status_application := "", smpl_type_application := "",
    data_quantity_application := "", dmin_application := "", probe_count := 0 }

/-- A metered quota group with a balance of 10 hours. -/
def c4_group : QuotaGroup :=
  { period_time := some 10, max_time := none, current_time := 10,
    quota_reset_time := 10, last_reset := 0 }

/-- Laboratory owning the metered group above. -/
def c4_lab : Laboratory := { quota_group := some c4_group }

/-- Application row with 5 recorded hours whose experiment start and end
coincide exactly, so the recomputed duration is zero. -/
def c4_db : AppFields :=
  { status := "submitted", data_status := "NO_DATA", prev_status := none,
    prev_data_status := "", time_spent := 5,
    experiment_start_date := some 0, experiment_start := some 0,
    experiment_end_date := some 0, experiment_end := some 0,
    quota_compensation := none,
    proc_status_application := "", smpl_type_application := "",
    data_quantity_application := "", dmin_application := "", probe_count := 0 }

/-- Application row with 5 recorded hours and a one-hour experiment. -/
def c4_db2 : AppFields :=
  { status := "submitted", data_status := "NO_DATA", prev_status := none,
    prev_data_status := "", time_spent := 5,
    experiment_start_date := some 0, experiment_start := some 0,
    experiment_end_date := some 0, experiment_end := some 3600,
    quota_compensation := none,
    proc_status_application := "", smpl_type_application := "",
    data_quantity_application := "", dmin_application := "", probe_count := 0 }

/-- Application row with no experiment dates or times recorded. -/
def c4_db3 : AppFields :=
  { status := "submitted", data_status := "NO_DATA", prev_status := none,
    prev_data_status := "", time_spent := 5,
    experiment_start_date := none, experiment_start := none,
    experiment_end_date := none, experiment_end := none,
    quota_compensation := none,
    proc_status_application := "", smpl_type_application := "",
    data_quantity_application := "", dmin_application := "", probe_count := 0 }

/-- Neutral application row for the aggregate-rebuild theorems. -/
def c5_db : AppFields :=
  { status := "submitted", data_status := "NO_DATA", prev_status := none,
    prev_data_status := "", time_spent := 0,
    experiment_start_date := none, experiment_start := none,
    experiment_end_date := none, experiment_end := none,
    quota_compensation := none,
    proc_status_application := "", smpl_type_application := "",
    data_quantity_application := "", dmin_application := "", probe_count := 0 }

/-- A single probe whose sample-type code UC is two characters long. -/
def c5_probe : ProbeAgg :=
  { number := 1, proc_status := ".", smpl_type := "UC", data_quantity := "", dmin := "" }

/-- Three probes with proc_status values SC_R, NULL, SC_RS in number order. -/
def c5_three : List ProbeAgg :=
  [{ number := 1, proc_status := "<", smpl_type := "", data_quantity := "", dmin := "" },
   { number := 2, proc_status := "", smpl_type := "", data_quantity := "", dmin := "" },
   { number := 3, proc_status := ">", smpl_type := "", data_quantity := "", dmin := "" }]

/-- Donor group with 10 hours available. -/
def c7_donor : QuotaGroup :=
  { period_time := some 50, max_time := none, current_time := 10,
    quota_reset_time := 10, last_reset := 0 }

/-- Acceptor group with 3 hours available. -/
def c7_acceptor : QuotaGroup :=
  { period_time := some 50, max_time := none, current_time := 3,
    quota_reset_time := 3, last_reset := 0 }

/-- Completed application whose reduced data is about to be marked sent. -/
def c9_db : AppFields :=
  { status := "completed", data_status := "DATA_REDUCED", prev_status := some "completed",
    prev_data_status := "NEED_REDUCTION", time_spent := 0,
    experiment_start_date := none, experiment_start := none,
    experiment_end_date := none, experiment_end := none,
    quota_compensation := none,
    proc_status_application := ".", smpl_type_application := "",
    data_quantity_application := "", dmin_application := "", probe_count := 1 }

/-- Laboratory with no quota group (quota side effects are no-ops). -/
def c9_lab : Laboratory := { quota_group := none }

/-- The loaded instance after the processing workflow set data_status to
DATA_SENT in memory. -/
def c9_inst : AppInstance :=
  { load_application c9_db with fields := { c9_db with data_status := "DATA_SENT" } }

/-- First save: the genuine DATA_SENT edge. -/
def c9_first : SaveResult := application_save 12 c9_lab c9_db c9_inst

/-- Second save: the aggregate rebuild the processing view performs right
after the full save; it writes only the aggregate columns. -/
def c9_second : SaveResult :=
  update_aggregated_fields
    [{ number := 1, proc_status := ">", smpl_type := "", data_quantity := "", dmin := "" }]
    c9_first.lab c9_first.db c9_first.inst

/-- An inactive notification relation with outstanding responses. -/
def c10_rel : NotificationRelation :=
  { is_active := false, logic_dependence := "&", pending := 3, accepted := 0, rejected := 2 }

/-
Helper lemmas.
-/

/-- Membership is preserved backwards through insertByNumber. -/
theorem mem_insertByNumber {p q : ProbeAgg} :
    ∀ {l : List ProbeAgg}, p ∈ insertByNumber q l → p = q ∨ p ∈ l := by
  intro l
  induction l with
  | nil => simp [insertByNumber]
  | cons r rs ih =>
    simp only [insertByNumber]
    by_cases hle : q.number ≤ r.number
    · rw [if_pos hle]
      intro h
      simp only [List.mem_cons] at h ⊢
      tauto
    · rw [if_neg hle]
      intro h
      simp only [List.mem_cons] at h ⊢
      rcases h with h | h
      · tauto
      · rcases ih h with h2 | h2 <;> tauto

/-- Membership is preserved backwards through sortByNumber. -/
theorem mem_sortByNumber {p : ProbeAgg} :
    ∀ {l : List ProbeAgg}, p ∈ sortByNumber l → p ∈ l := by
  intro l
  induction l with
  | nil => simp [sortByNumber]
  | cons r rs ih =>
    intro h
    rcases mem_insertByNumber h with h2 | h2
    · simp [h2]
    · simp only [List.mem_cons]
      exact Or.inr (ih h2)

/-- insertByNumber adds exactly one element. -/
theorem length_insertByNumber (q : ProbeAgg) :
    ∀ (l : List ProbeAgg), (insertByNumber q l).length = l.length + 1 := by
  intro l
  induction l with
  | nil => rfl
  | cons r rs ih =>
    simp only [insertByNumber]
    by_cases hle : q.number ≤ r.number
    · rw [if_pos hle]; rfl
    · rw [if_neg hle]; simp [ih]

/-- sortByNumber preserves length. -/
theorem length_sortByNumber :
    ∀ (l : List ProbeAgg), (sortByNumber l).length = l.length := by
  intro l
  induction l with
  | nil => rfl
  | cons r rs ih => simp [sortByNumber, length_insertByNumber, ih]

/-- Joining one-character strings gives one character per element. -/
theorem length_concat_all (f : ProbeAgg → String) :
    ∀ (l : List ProbeAgg), (∀ p ∈ l, (f p).length = 1) →
      (concat_all l f).length = l.length := by
  intro l
  induction l with
  | nil => intro _; rfl
  | cons r rs ih =>
    intro h
    have hr : (f r).length = 1 := h r (List.mem_cons_self _ _)
    have hrest := ih (fun p hp => h p (List.mem_cons_of_mem _ hp))
    simp [concat_all, String.length_append, hr, hrest, Nat.add_comm]

/-- Every stored ProcStatus code renders as a single character under
safe_str (the NULL code becomes the spade sentinel). -/
theorem safe_str_length_of_code {s : String} (h : s ∈ proc_status_values) :
    (safe_str s).length = 1 := by
  fin_cases h <;> decide

/-- QuotaGroup.add_time always moves the balance by its argument. -/
theorem add_time_current (g : QuotaGroup) (t : Rat) :
    (g.add_time t).current_time = g.current_time + t := by
  by_cases h : t = 0
  · subst h; simp [QuotaGroup.add_time]
  · simp [QuotaGroup.add_time, h]

/-- QuotaGroup.subtract_time always moves the balance down by its argument. -/
theorem subtract_time_current (g : QuotaGroup) (t : Rat) :
    (g.subtract_time t).current_time = g.current_time - t := by
  simp [QuotaGroup.subtract_time, add_time_current, sub_eq_add_neg]

/-
Claim theorems.
-/

/-- C1 counterexample: with asap_priority set and the deadline exactly at
`now` (overdue), priority returns 100, not the claimed 101 — the ASAP
branch is tested before the overdue branch. -/
theorem C1_counterexample :
    priority true (some 0) 0 = 100 ∧ priority true (some 0) 0 ≠ 101 := by
  constructor <;> decide

/-- C1 (amended): the ASAP score of 100 takes precedence over the overdue
score: priority returns 100 whenever asap_priority holds, regardless of the
deadline; it returns 101 exactly when asap_priority is false, a deadline is
set and the deadline is at or before `now`. -/
theorem C1_theorem :
    (∀ (deadline : Option Int) (now : Int), priority true deadline now = 100) ∧
    (∀ (d now : Int), d ≤ now → priority false (some d) now = 101) := by
  constructor
  · intro deadline now
    rfl
  · intro d now h
    have hle : d - now ≤ 0 := sub_nonpos.mpr h
    simp [priority, hle]

/-- C1 witness: the amended theorem evaluated with an overdue deadline. -/
theorem C1_witness :
    priority true (some 5) 0 = 100 ∧ priority false (some 0) 0 = 101 :=
  ⟨C1_theorem.1 (some 5) 0, C1_theorem.2 0 0 (le_refl 0)⟩

/-- C2 counterexample: on an unlimited group (period_time NULL) with a zero
balance, add_time 5 moves current_time to 5 — add_time has no unlimited or
exempt regime guard, so the claim fails for add_time. -/
theorem C2_counterexample :
    (c2_group.add_time 5).current_time = 5 ∧
    (c2_group.add_time 5).current_time ≠ c2_group.current_time := by
  constructor <;> norm_num [c2_group, QuotaGroup.add_time]

/-- C2 (amended): on a group whose period_time is NULL (unlimited) or -1
(exempt), Laboratory.consume_time and QuotaGroup.reset_quota leave
current_time unchanged for every argument, but QuotaGroup.add_time changes
current_time by its argument whenever that argument is nonzero, regardless
of the regime; it is a no-op only for a zero (falsy) argument. -/
theorem C2_theorem :
    (∀ (lab : Laboratory) (g : QuotaGroup) (hours : Rat),
        lab.quota_group = some g →
        (g.period_time = none ∨ g.period_time = some (-1)) →
        lab.consume_time hours = lab) ∧
    (∀ (g : QuotaGroup) (now : Int),
        (g.period_time = none ∨ g.period_time = some (-1)) →
        g.reset_quota now = g) ∧
    (∀ (g : QuotaGroup) (t : Rat),
        (g.add_time t).current_time =
          if t = 0 then g.current_time else g.current_time + t) := by
  refine ⟨?_, ?_, ?_⟩
  · intro lab g hours hg hcase
    simp only [Laboratory.consume_time, hg]
    rw [if_pos hcase]
  · intro g now hcase
    rcases hcase with h | h <;> simp [QuotaGroup.reset_quota, h]
  · intro g t
    by_cases h : t = 0 <;> simp [QuotaGroup.add_time, h]

/-- C2 witness: the amended theorem evaluated on the unlimited fixture
group. -/
theorem C2_witness :
    Laboratory.consume_time { quota_group := some c2_group } 7 =
      { quota_group := some c2_group } ∧
    c2_group.reset_quota 3 = c2_group ∧
    (c2_group.add_time 5).current_time =
      (if (5 : Rat) = 0 then c2_group.current_time else c2_group.current_time + 5) :=
  ⟨C2_theorem.1 { quota_group := some c2_group } c2_group 7 rfl (Or.inl rfl),
   C2_theorem.2.1 c2_group 3 (Or.inl rfl),
   C2_theorem.2.2 c2_group 5⟩

/-- C3: compute_time_spent returns nothing when any component is missing
(and the save then leaves time_spent unchanged); a multi-day experiment
yields the rounded night-experiment constant independently of the clock
times; a same-day experiment yields end minus start with midnight wrap,
plus the quota compensation when present, in hours rounded to 2 decimals. -/
theorem C3_theorem :
    (∀ (night : Rat) (qc : Option Int) (sd st ed et : Option Int),
        (sd = none ∨ st = none ∨ ed = none ∨ et = none) →
        compute_time_spent night qc sd st ed et = none) ∧
    (∀ (night : Rat) (lab : Laboratory) (db : AppFields) (inst : AppInstance),
        compute_time_spent night inst.fields.quota_compensation
          inst.fields.experiment_start_date inst.fields.experiment_start
          inst.fields.experiment_end_date inst.fields.experiment_end = none →
        (application_save night lab db inst).db.time_spent = inst.fields.time_spent) ∧
    (∀ (night : Rat) (qc : Option Int) (d1 s d2 e : Int), d1 ≠ d2 →
        compute_time_spent night qc (some d1) (some s) (some d2) (some e) =
          some (round2 night)) ∧
    (∀ (night : Rat) (qc : Option Int) (d s e : Int),
        compute_time_spent night qc (some d) (some s) (some d) (some e) =
          some (round2
            (((((if d * 86400 + e < d * 86400 + s then d * 86400 + e + 86400
                 else d * 86400 + e) - (d * 86400 + s) + qc.getD 0 : Int)) : Rat) / 3600))) := by
  refine ⟨?_, ?_, ?_, ?_⟩
  · intro night qc sd st ed et h
    cases sd <;> cases st <;> cases ed <;> cases et <;> simp_all [compute_time_spent]
  · intro night lab db inst h
    simp [application_save, h]
  · intro night qc d1 s d2 e h
    simp [compute_time_spent, h]
  · intro night qc d s e
    cases qc with
    | none => simp [compute_time_spent]
    | some c =>
      by_cases hc : c = 0
      · subst hc; simp [compute_time_spent]
      · simp [compute_time_spent, hc]

/-- C3 witness: the theorem evaluated on concrete missing, multi-day and
same-day inputs. -/
theorem C3_witness :
    compute_time_spent 10 none none (some 0) (some 0) (some 0) = none ∧
    (application_save 10 { quota_group := none } c3_db (load_application c3_db)).db.time_spent
      = (load_application c3_db).fields.time_spent ∧
    compute_time_spent 10 none (some 0) (some 7) (some 1) (some 9) = some (round2 10) :=
  ⟨C3_theorem.1 10 none none (some 0) (some 0) (some 0) (Or.inl rfl),
   C3_theorem.2.1 10 { quota_group := none } c3_db (load_application c3_db) (by decide),
   C3_theorem.2.2.1 10 none 0 7 1 9 (by decide)⟩

/-- C4 counterexample: a persisted application with recorded time_spent 5
whose experiment start and end coincide recomputes a zero duration; the
save then neither updates time_spent nor touches the quota (the computed
value is falsy), whereas the claim demands a debit of the delta 0 - 5,
i.e. a credit of 5 hours and a recomputed time_spent of 0. -/
theorem C4_counterexample :
    (application_save 12 c4_lab c4_db (load_application c4_db)).lab = c4_lab ∧
    (application_save 12 c4_lab c4_db (load_application c4_db)).db.time_spent = 5 ∧
    ¬ ((application_save 12 c4_lab c4_db (load_application c4_db)).db.time_spent = 0 ∧
       ((application_save 12 c4_lab c4_db (load_application c4_db)).lab).get_available_time
         = 10 - ((0 : Rat) - 5)) := by
  have hc : compute_time_spent 12 none (some 0) (some 0) (some 0) (some 0) = some 0 := by
    norm_num [compute_time_spent, round2, pyRound, floorQ]
  refine ⟨?_, ?_, ?_⟩
  · simp [application_save, load_application, c4_db, hc]
  · simp [application_save, load_application, c4_db, hc]
  · intro hclaim
    have h5 : (application_save 12 c4_lab c4_db (load_application c4_db)).db.time_spent = 5 := by
      simp [application_save, load_application, c4_db, hc]
    rw [hclaim.1] at h5
    norm_num at h5

/-- C4 (amended): when the recomputed duration is non-None and nonzero, the
save sets time_spent to it and debits the laboratory by the delta between
the new value and the `_current_time` snapshot taken when the instance was
loaded (which is the previously recorded time_spent for a freshly loaded
row); when the recomputed duration is None or zero, neither time_spent nor
the quota is touched. -/
theorem C4_theorem :
    (∀ (night : Rat) (lab : Laboratory) (db : AppFields) (inst : AppInstance) (t : Rat),
        compute_time_spent night inst.fields.quota_compensation
          inst.fields.experiment_start_date inst.fields.experiment_start
          inst.fields.experiment_end_date inst.fields.experiment_end = some t →
        t ≠ 0 →
        (application_save night lab db inst).lab
            = lab.consume_time (t - inst.current_time_attr) ∧
        (application_save night lab db inst).db.time_spent = t) ∧
    (∀ (night : Rat) (lab : Laboratory) (db : AppFields) (inst : AppInstance),
        (compute_time_spent night inst.fields.quota_compensation
          inst.fields.experiment_start_date inst.fields.experiment_start
          inst.fields.experiment_end_date inst.fields.experiment_end = none ∨
         compute_time_spent night inst.fields.quota_compensation
          inst.fields.experiment_start_date inst.fields.experiment_start
          inst.fields.experiment_end_date inst.fields.experiment_end = some 0) →
        (application_save night lab db inst).lab = lab ∧
        (application_save night lab db inst).db.time_spent = inst.fields.time_spent) := by
  constructor
  · intro night lab db inst t hc ht
    by_cases hattr : inst.current_time_attr = 0
    · rw [hattr, sub_zero]
      constructor <;> simp [application_save, hc, ht, hattr]
    · constructor <;> simp [application_save, hc, ht, hattr]
  · intro night lab db inst h
    rcases h with h | h <;> constructor <;> simp [application_save, h]

/-- C4 witness: the amended theorem evaluated on a one-hour experiment with
a recorded 5 hours (truthy branch) and on a row with missing times (None
branch). -/
theorem C4_witness :
    ((application_save 12 c4_lab c4_db2 (load_application c4_db2)).lab
        = c4_lab.consume_time (1 - (load_application c4_db2).current_time_attr) ∧
     (application_save 12 c4_lab c4_db2 (load_application c4_db2)).db.time_spent = 1) ∧
    ((application_save 12 c4_lab c4_db3 (load_application c4_db3)).lab = c4_lab ∧
     (application_save 12 c4_lab c4_db3 (load_application c4_db3)).db.time_spent
        = (load_application c4_db3).fields.time_spent) :=
  ⟨C4_theorem.1 12 c4_lab c4_db2 (load_application c4_db2) 1
      (by norm_num [c4_db2, load_application, compute_time_spent, round2, pyRound, floorQ])
      (by norm_num),
   C4_theorem.2 12 c4_lab c4_db3 (load_application c4_db3) (Or.inl (by decide))⟩

/-- C5 counterexample: one probe with sample type UC (a two-character
code): the rebuilt smpl_type_application is "UC" with length 2 while
probe_count is 1, so not every aggregate string has length probe_count. -/
theorem C5_counterexample :
    ¬ (((update_aggregated_fields [c5_probe] { quota_group := none } c5_db
          (load_application c5_db)).db.smpl_type_application).length
        = (update_aggregated_fields [c5_probe] { quota_group := none } c5_db
          (load_application c5_db)).db.probe_count) := by
  decide

/-- C5 (amended): the aggregates are rebuilt one entry per probe in number
order with the spade sentinel for falsy values; the length-equals-
probe_count invariant holds for proc_status_application, whose per-probe
codes are all single characters, and in particular three probes with
proc_status values SC_NR, NULL, SC_RS in number order yield "<♠>" with
probe_count 3; the other three aggregates concatenate possibly
multi-character codes, so their lengths can exceed probe_count. -/
theorem C5_theorem :
    (∀ (probes : List ProbeAgg) (lab : Laboratory) (db : AppFields) (inst : AppInstance),
        (∀ p ∈ probes, p.proc_status ∈ proc_status_values) →
        ((update_aggregated_fields probes lab db inst).db.proc_status_application).length
          = (update_aggregated_fields probes lab db inst).db.probe_count) ∧
    ((update_aggregated_fields c5_three { quota_group := none } c5_db
        (load_application c5_db)).db.proc_status_application = "<♠>" ∧
     (update_aggregated_fields c5_three { quota_group := none } c5_db
        (load_application c5_db)).db.probe_count = 3) := by
  constructor
  · intro probes lab db inst hmem
    show (concat_all (sortByNumber probes) fun p => safe_str p.proc_status).length
        = (sortByNumber probes).length
    exact length_concat_all _ _
      (fun p hp => safe_str_length_of_code (hmem p (mem_sortByNumber hp)))
  · constructor <;> decide

/-- C5 witness: the amended length invariant evaluated on the three-probe
fixture, whose codes all belong to the ProcStatus alphabet. -/
theorem C5_witness :
    ((update_aggregated_fields c5_three { quota_group := none } c5_db
        (load_application c5_db)).db.proc_status_application).length
      = (update_aggregated_fields c5_three { quota_group := none } c5_db
        (load_application c5_db)).db.probe_count :=
  C5_theorem.1 c5_three { quota_group := none } c5_db (load_application c5_db) (by decide)

/-- C6: the processing-dispatch lock gate acquires for an unset lock,
refreshes for the current holder, rejects a different requester within the
two-hour cooldown with a conflict naming the holder and an unchanged lock,
and lets a different requester steal the lock once the cooldown has
elapsed, overwriting both holder and timestamp. -/
theorem C6_theorem :
    (∀ (requester : Nat) (now : Int),
        lock_dispatch none requester now =
          { allowed := true, conflict_holder := none, lock := some (requester, now) }) ∧
    (∀ (holder : Nat) (acquired_at : Int) (requester : Nat) (now : Int),
        holder = requester →
        lock_dispatch (some (holder, acquired_at)) requester now =
          { allowed := true, conflict_holder := none, lock := some (requester, now) }) ∧
    (∀ (holder : Nat) (acquired_at : Int) (requester : Nat) (now : Int),
        holder ≠ requester → now - acquired_at < operator_lock_cooldown →
        lock_dispatch (some (holder, acquired_at)) requester now =
          { allowed := false, conflict_holder := some holder,
            lock := some (holder, acquired_at) }) ∧
    (∀ (holder : Nat) (acquired_at : Int) (requester : Nat) (now : Int),
        holder ≠ requester → operator_lock_cooldown ≤ now - acquired_at →
        lock_dispatch (some (holder, acquired_at)) requester now =
          { allowed := true, conflict_holder := none, lock := some (requester, now) }) := by
  refine ⟨?_, ?_, ?_, ?_⟩
  · intro requester now; rfl
  · intro holder acquired_at requester now h
    simp [lock_dispatch, h]
  · intro holder acquired_at requester now h hcool
    simp [lock_dispatch, h, hcool]
  · intro holder acquired_at requester now h hcool
    simp [lock_dispatch, h, not_lt.mpr hcool]

/-- C6 witness: refresh by the holder, rejection of a different requester
10 seconds into the lock, and a steal exactly when the cooldown elapses. -/
theorem C6_witness :
    lock_dispatch (some (1, 0)) 1 10 =
      { allowed := true, conflict_holder := none, lock := some (1, 10) } ∧
    lock_dispatch (some (1, 0)) 2 10 =
      { allowed := false, conflict_holder := some 1, lock := some (1, 0) } ∧
    lock_dispatch (some (1, 0)) 2 7200 =
      { allowed := true, conflict_holder := none, lock := some (2, 7200) } :=
  ⟨C6_theorem.2.1 1 0 1 10 rfl,
   C6_theorem.2.2.1 1 0 2 10 (by decide) (by decide),
   C6_theorem.2.2.2 1 0 2 7200 (by decide) (by decide)⟩

/-- C7: a transfer request is rejected with untouched balances and no
audit row when the donor is the acceptor or the donor balance is below the
requested amount; otherwise the donor balance drops by exactly the amount,
the acceptor balance rises by exactly the amount, and exactly one audit
row recording the amount is created. -/
theorem C7_theorem :
    (∀ (donor_id acceptor_id : Nat) (donor acceptor : QuotaGroup) (t : Rat),
        donor_id = acceptor_id ∨ donor.current_time < t →
        quota_transfer donor_id acceptor_id donor acceptor t =
          { donor := donor, acceptor := acceptor, audit_rows := [], accepted := false }) ∧
    (∀ (donor_id acceptor_id : Nat) (donor acceptor : QuotaGroup) (t : Rat),
        donor_id ≠ acceptor_id → t ≤ donor.current_time →
        (quota_transfer donor_id acceptor_id donor acceptor t).accepted = true ∧
        (quota_transfer donor_id acceptor_id donor acceptor t).donor.current_time
          = donor.current_time - t ∧
        (quota_transfer donor_id acceptor_id donor acceptor t).acceptor.current_time
          = acceptor.current_time + t ∧
        (quota_transfer donor_id acceptor_id donor acceptor t).audit_rows = [t]) := by
  constructor
  · intro donor_id acceptor_id donor acceptor t h
    rcases h with h | h
    · simp only [quota_transfer]
      rw [if_pos (Or.inr h)]
    · simp only [quota_transfer]
      rw [if_pos (Or.inl h)]
  · intro donor_id acceptor_id donor acceptor t hne hbal
    have hcond : ¬ (donor.current_time < t ∨ donor_id = acceptor_id) := by
      push_neg
      exact ⟨hbal, hne⟩
    simp only [quota_transfer]
    rw [if_neg hcond]
    refine ⟨rfl, ?_, ?_, rfl⟩
    · exact subtract_time_current donor t
    · exact add_time_current acceptor t

/-- C7 witness: a self-transfer of 4 hours is rejected; a transfer of 4
hours from the 10-hour donor to the 3-hour acceptor is accepted with the
two balances moved by exactly 4 and one audit row. -/
theorem C7_witness :
    quota_transfer 1 1 c7_donor c7_acceptor 4 =
      { donor := c7_donor, acceptor := c7_acceptor, audit_rows := [], accepted := false } ∧
    ((quota_transfer 1 2 c7_donor c7_acceptor 4).accepted = true ∧
     (quota_transfer 1 2 c7_donor c7_acceptor 4).donor.current_time
        = c7_donor.current_time - 4 ∧
     (quota_transfer 1 2 c7_donor c7_acceptor 4).acceptor.current_time
        = c7_acceptor.current_time + 4 ∧
     (quota_transfer 1 2 c7_donor c7_acceptor 4).audit_rows = [4]) :=
  ⟨C7_theorem.1 1 1 c7_donor c7_acceptor 4 (Or.inl rfl),
   C7_theorem.2 1 2 c7_donor c7_acceptor 4 (by decide)
     (by norm_num [c7_donor])⟩

/-- C8: get_reduced_value is idempotent on every status; get_posted_value
fixes every status other than SC_R and PW_R; need_to_post holds exactly on
SC_R and PW_R. -/
theorem C8_theorem :
    (∀ status : String,
        get_reduced_value (get_reduced_value status) = get_reduced_value status) ∧
    (∀ status : String, status ≠ "." → status ≠ ";" →
        get_posted_value status = status) ∧
    (∀ status : String, need_to_post status = true ↔ (status = "." ∨ status = ";")) := by
  refine ⟨?_, ?_, ?_⟩
  · intro status
    by_cases h1 : status = "<"
    · subst h1; decide
    by_cases h2 : status = "("
    · subst h2; decide
    by_cases h3 : status = "!"
    · subst h3; decide
    simp [get_reduced_value, h1, h2, h3]
  · intro status h1 h2
    simp [get_posted_value, h1, h2]
  · intro status
    by_cases h1 : status = "."
    · subst h1; simp [need_to_post]
    by_cases h2 : status = ";"
    · subst h2; simp [need_to_post]
    simp [need_to_post, h1, h2]

/-- C8 witness: the theorem evaluated on the trash code x and on SC_R. -/
theorem C8_witness :
    get_posted_value "x" = "x" ∧
    (need_to_post "." = true ↔ ("." = "." ∨ "." = ";")) :=
  ⟨C8_theorem.2.1 "x" (by decide) (by decide), C8_theorem.2.2 "."⟩

/-- C9: in the state reached right after the DATA_SENT transition is saved
(as the processing view does), the immediately following aggregate-rebuild
save changes neither status nor data_status in the database, yet the
data-published email fires again — the first save already fired it on the
genuine edge.  This re-fire contradicts the edge-only contract. -/
theorem C9_theorem :
    c9_first.emails = [EmailKind.dataSent] ∧
    c9_second.db.data_status = c9_first.db.data_status ∧
    c9_second.db.status = c9_first.db.status ∧
    c9_second.emails = [EmailKind.dataSent] := by
  refine ⟨?_, ?_, ?_, ?_⟩ <;> decide

/-- C10: an issue gated by no active relation is always allowed: the AND
over gates is vacuously true, and try_action passes the approval gate, so
for a mapped action code it reaches handler dispatch. -/
theorem C10_theorem :
    ∀ (rels : List NotificationRelation) (method : String),
      (∀ r ∈ rels, r.is_active = false) →
      is_action_allowed rels = true ∧
      try_action rels method ≠ TryActionResult.notAllowed ∧
      (∀ name, method_mapping method = some name →
        try_action rels method = TryActionResult.handlerDispatched name) := by
  intro rels method h
  have hfilter : rels.filter (fun r => r.is_active) = [] := by
    induction rels with
    | nil => rfl
    | cons r rs ih =>
      have hr := h r (List.mem_cons_self _ _)
      have hrest := ih (fun q hq => h q (List.mem_cons_of_mem _ hq))
      simp [List.filter, hr, hrest]
  have hallow : is_action_allowed rels = true := by
    simp [is_action_allowed, hfilter]
  refine ⟨hallow, ?_, ?_⟩
  · cases hm : method_mapping method <;> simp [try_action, hallow, hm]
  · intro name hm
    simp [try_action, hallow, hm]

/-- C10 witness: an issue whose only relation is inactive (even with
pending and rejected responses outstanding) is allowed, and the chgsp
action code reaches dispatch of its mapped handler. -/
theorem C10_witness :
    is_action_allowed [c10_rel] = true ∧
    try_action [c10_rel] "chgsp" = TryActionResult.handlerDispatched "dummymethod1" :=
  ⟨(C10_theorem [c10_rel] "chgsp" (by decide)).1,
   (C10_theorem [c10_rel] "chgsp" (by decide)).2.2 "dummymethod1" (by decide)⟩
